import Mathlib

/-!
Shallow embedding of the PayFlow settlement core.

The definitions below translate the repository source:
  src/shared/sdk/core.ts          (PayFlowSDK.processPayment, payInvoice,
                                   payOrder, updateProductStock, topUpWallet,
                                   getUserByEmail)
  src/shared/middleware/validation.ts (BusinessValidation)
  src/functions/src/index.ts      (momoWebhook)
  src/unnamed/part_005            (IntegrationService.transferMoney)

The Firestore document store is modelled as association lists keyed by
document id.  A runTransaction block is modelled by threading a buffered
state through the body; a thrown error aborts the block and the caller
observes the original state (full rollback), exactly as Firestore discards
buffered writes of an aborted transaction.  Two updates of the same
document inside one transaction merge, last write wins, which the
sequential threading reproduces.  Monetary amounts and stock quantities
are JavaScript numbers in the source and are modelled as integers in the
smallest currency unit, following the data model of the specification.
Timestamp fields that no control-flow decision reads (updatedAt, paidAt)
are either omitted or set to a fixed marker value.
-/

namespace FlowApps

/-- Subset of the User document used by the settlement core. -/
structure UserDoc where
  email : String
  walletBalance : ℤ
  isActive : Bool
deriving DecidableEq, Repr

/-- Transaction type enumeration from src/shared/types. -/
inductive TxType
  | wallet_topup | invoice_payment | product_purchase | transfer
deriving DecidableEq, Repr, BEq

/-- Transaction status enumeration from src/shared/types. -/
inductive TxStatus
  | pending | completed | failed | cancelled
deriving DecidableEq, Repr, BEq

/-- The metadata keys the settlement paths actually write or read. -/
structure Metadata where
  invoiceId : Option String := none
  orderId : Option String := none
  paymentMethod : Option String := none
  momoReference : Option String := none
  phoneNumber : Option String := none
deriving DecidableEq, Repr

/-- Transaction document created by processPayment. -/
structure TransactionDoc where
  payerId : String
  receiverId : String
  companyId : Option String
  amount : ℤ
  type : TxType
  status : TxStatus
  sourceApp : String
  description : String
  metadata : Metadata
deriving DecidableEq, Repr

/-- Invoice status enumeration from src/shared/types. -/
inductive InvStatus
  | draft | sent | paid | overdue | cancelled
deriving DecidableEq, Repr, BEq

/-- Subset of the Invoice document used by payInvoice. -/
structure InvoiceDoc where
  companyId : String
  clientEmail : String
  invoiceNumber : String
  total : ℤ
  status : InvStatus
  dueDate : Int
  paidAt : Option Int := none
  paymentTransactionId : Option String := none
deriving DecidableEq, Repr

/-- Order status enumeration from src/shared/types. -/
inductive OrdStatus
  | pending | paid | shipped | delivered | cancelled
deriving DecidableEq, Repr, BEq

/-- Line item of an order, as consumed by updateProductStock. -/
structure OrderItem where
  productId : String
  quantity : ℤ
deriving DecidableEq, Repr

/-- Subset of the Order document used by payOrder. -/
structure OrderDoc where
  companyId : String
  customerId : String
  customerEmail : String
  items : List OrderItem
  total : ℤ
  status : OrdStatus
  paymentTransactionId : Option String := none
deriving DecidableEq, Repr

/-- Subset of the Product document used by stock updates. -/
structure ProductDoc where
  companyId : String
  name : String
  quantity : ℤ
  isActive : Bool
deriving DecidableEq, Repr

/-- Subset of the Company document used to resolve the payment receiver. -/
structure CompanyDoc where
  ownerId : String
deriving DecidableEq, Repr

/-- The Firestore collections touched by the settlement core. -/
structure DB where
  users : List (String × UserDoc)
  companies : List (String × CompanyDoc)
  invoices : List (String × InvoiceDoc)
  orders : List (String × OrderDoc)
  products : List (String × ProductDoc)
  transactions : List (String × TransactionDoc)
deriving DecidableEq, Repr

/-- Document lookup by id, the model of getDoc / transaction.get: the
first entry whose key matches. -/
def getDoc {A : Type} : List (String × A) → String → Option A
  | [], _ => none
  | p :: rest, id => if p.1 == id then some p.2 else getDoc rest id

/-- Field update of an existing document, the model of updateDoc /
transaction.update.  Documents with a different id are untouched. -/
def setDoc {A : Type} (col : List (String × A)) (id : String) (f : A → A) :
    List (String × A) :=
  col.map (fun p => if p.1 == id then (p.1, f p.2) else p)

/-- Fresh id for a transaction document, the model of
doc(collection(db, transactions)) which draws an unused random id. -/
def freshTxId (s : DB) : String :=
  "tx" ++ toString s.transactions.length

/-- Argument record of PayFlowSDK.processPayment. -/
structure PayInput where
  payerId : String
  receiverId : String
  companyId : Option String := none
  amount : ℤ
  type : TxType
  sourceApp : String
  description : String := ""
  metadata : Metadata := {}
deriving Repr

/-- Result shape returned by the settlement operations. -/
inductive PayResult
  | ok (transactionId : String)
  | err (error : String)
deriving DecidableEq, Repr

/-- PayFlowSDK.processPayment, src/shared/sdk/core.ts lines 22 to 105.
The runTransaction body reads both user documents, checks existence,
activity and, for non topup types, the payer balance; it then buffers a
payer debit (absolute write of the snapshot balance minus amount), a
receiver credit (absolute write of the snapshot balance plus amount) and
the insert of a completed transaction record.  A throw aborts the block
and the original state is returned together with the error message. -/
def processPayment (s : DB) (d : PayInput) : PayResult × DB :=
  match getDoc s.users d.payerId with
  | none => (.err "Payer not found", s)
  | some payerData =>
    match getDoc s.users d.receiverId with
    | none => (.err "Receiver not found", s)
    | some receiverData =>
      if !payerData.isActive || !receiverData.isActive then
        (.err "One or more users are inactive", s)
      else if d.type ≠ .wallet_topup ∧ payerData.walletBalance < d.amount then
        (.err "Insufficient wallet balance", s)
      else
        let s1 : DB :=
          if d.type ≠ .wallet_topup then
            { s with users := (setDoc s.users d.payerId
                (fun u => { u with walletBalance := payerData.walletBalance - d.amount })) }
          else s
        let s2 : DB :=
          { s1 with users := (setDoc s1.users d.receiverId
              (fun u => { u with walletBalance := receiverData.walletBalance + d.amount })) }
        let txId := freshTxId s
        let tx : TransactionDoc :=
          { payerId := d.payerId
            receiverId := d.receiverId
            companyId := d.companyId
            amount := d.amount
            type := d.type
            status := .completed
            sourceApp := d.sourceApp
            description := d.description
            metadata := d.metadata }
        (.ok txId, { s2 with transactions := s2.transactions ++ [(txId, tx)] })

/-- The PayInput that payInvoice hands to processPayment. -/
def payInvoiceData (invoiceId payerId : String) (invoice : InvoiceDoc)
    (company : CompanyDoc) : PayInput :=
  { payerId := payerId
    receiverId := company.ownerId
    companyId := some invoice.companyId
    amount := invoice.total
    type := .invoice_payment
    sourceApp := "invoiceflow"
    description := "Payment for Invoice " ++ invoice.invoiceNumber
    metadata := { invoiceId := some invoiceId } }

/-- The read-and-validate phase of payInvoice: load the invoice, reject a
paid one, load the company.  This runs outside any store transaction in
the source (plain getDoc calls). -/
def payInvoiceCheck (s : DB) (invoiceId : String) :
    Except String (InvoiceDoc × CompanyDoc) :=
  match getDoc s.invoices invoiceId with
  | none => .error "Invoice not found"
  | some invoice =>
    if invoice.status = .paid then .error "Invoice already paid"
    else
      match getDoc s.companies invoice.companyId with
      | none => .error "Company not found"
      | some company => .ok (invoice, company)

/-- The invoice patch payInvoice issues after a successful transfer
(updateDoc, outside the ledger transaction).  paidAt is a timestamp in
the source; no decision reads it, so a marker value stands in. -/
def payInvoicePatch (s : DB) (invoiceId txId : String) : DB :=
  { s with invoices := (setDoc s.invoices invoiceId
      (fun inv => { inv with
        status := .paid
        paidAt := some 0
        paymentTransactionId := some txId })) }

/-- PayFlowSDK.payInvoice, src/shared/sdk/core.ts lines 111 to 167:
check phase, then the ledger transfer, then the invoice patch, three
separate store operations. -/
def payInvoice (s : DB) (invoiceId payerId : String) : PayResult × DB :=
  match payInvoiceCheck s invoiceId with
  | .error e => (.err e, s)
  | .ok (invoice, company) =>
    match processPayment s (payInvoiceData invoiceId payerId invoice company) with
    | (.ok txId, s1) => (.ok txId, payInvoicePatch s1 invoiceId txId)
    | (.err e, s1) => (.err e, s1)

/-- Body of the runTransaction block of updateProductStock: fold over the
items on the buffered state, abort on a missing product or insufficient
stock, otherwise buffer the decrement. -/
def stockTxn : DB → List OrderItem → Except String DB
  | s, [] => .ok s
  | s, item :: rest =>
    match getDoc s.products item.productId with
    | none => .error ("Product " ++ item.productId ++ " not found")
    | some product =>
      if product.quantity < item.quantity then
        .error ("Insufficient stock for " ++ product.name)
      else
        stockTxn
          { s with products := (setDoc s.products item.productId
              (fun p => { p with quantity := product.quantity - item.quantity })) }
          rest

/-- PayFlowSDK.updateProductStock, src/shared/sdk/core.ts lines 239 to
271.  A throw inside the transaction discards every buffered decrement,
so failure returns the untouched input state. -/
def updateProductStock (s : DB) (items : List OrderItem) :
    Option String × DB :=
  match stockTxn s items with
  | .ok s1 => (none, s1)
  | .error e => (some e, s)

/-- The PayInput that payOrder hands to processPayment. -/
def payOrderData (orderId payerId : String) (order : OrderDoc)
    (company : CompanyDoc) : PayInput :=
  { payerId := payerId
    receiverId := company.ownerId
    companyId := some order.companyId
    amount := order.total
    type := .product_purchase
    sourceApp := "stockflow"
    description := "Payment for Order " ++ orderId
    metadata := { orderId := some orderId } }

/-- PayFlowSDK.payOrder, src/shared/sdk/core.ts lines 173 to 234: load
order, reject a paid one, load company, commit the stock decrement in its
own transaction, then run the ledger transfer, then patch the order.
When the transfer fails the already committed stock decrement is left in
place (the source has no restore step). -/
def payOrder (s : DB) (orderId payerId : String) : PayResult × DB :=
  match getDoc s.orders orderId with
  | none => (.err "Order not found", s)
  | some order =>
    if order.status = .paid then (.err "Order already paid", s)
    else
      match getDoc s.companies order.companyId with
      | none => (.err "Company not found", s)
      | some company =>
        match updateProductStock s order.items with
        | (some e, _) => (.err e, s)
        | (none, s1) =>
          match processPayment s1 (payOrderData orderId payerId order company) with
          | (.ok txId, s2) =>
            (.ok txId, { s2 with orders := (setDoc s2.orders orderId
                (fun o => { o with status := .paid, paymentTransactionId := some txId })) })
          | (.err e, s2) => (.err e, s2)

/-- PayFlowSDK.topUpWallet, src/shared/sdk/core.ts lines 401 to 411: a
self transaction of type wallet_topup.  The metadata spread puts the
method under paymentMethod unless the caller supplied one. -/
def topUpWallet (s : DB) (userId : String) (amount : ℤ) (method : String)
    (md : Metadata := {}) : PayResult × DB :=
  processPayment s
    { payerId := userId
      receiverId := userId
      amount := amount
      type := .wallet_topup
      sourceApp := "payflow"
      description := "Wallet top-up via " ++ method
      metadata := { md with paymentMethod := some (md.paymentMethod.getD method) } }

/-- PayFlowSDK.getUserByEmail: first user document whose email matches. -/
def getUserByEmail (s : DB) (email : String) : Option (String × UserDoc) :=
  s.users.find? (fun p => p.2.email == email)

/-- IntegrationService.transferMoney, src/unnamed/part_005 lines 37 to
52: resolve the receiver by email, then a processPayment of type
transfer. -/
def transferMoney (s : DB) (fromUserId toUserEmail : String) (amount : ℤ)
    (description : String) : PayResult × DB :=
  match getUserByEmail s toUserEmail with
  | none => (.err "Recipient not found", s)
  | some (toId, _) =>
    processPayment s
      { payerId := fromUserId
        receiverId := toId
        amount := amount
        type := .transfer
        sourceApp := "payflow"
        description := description }

/-- momoWebhook, src/functions/src/index.ts lines 153 to 184: find the
first transaction whose stored momoReference matches and overwrite its
status from the webhook status, regardless of its current status. -/
def momoWebhook (s : DB) (reference status : String) : DB :=
  match s.transactions.find? (fun p => p.2.metadata.momoReference == some reference) with
  | none => s
  | some (txId, _) =>
    { s with transactions := (setDoc s.transactions txId
        (fun t => { t with
          status := if status == "SUCCESSFUL" then .completed else .failed })) }

/-- Validation result shape of BusinessValidation. -/
structure ValidationResult where
  valid : Bool
  error : Option String := none
deriving DecidableEq, Repr

/-- BusinessValidation.validateInvoicePayment,
src/shared/middleware/validation.ts lines 150 to 164.  The now argument
models new Date(); payerId is accepted and ignored as in the source. -/
def validateInvoicePayment (now : Int) (invoice : InvoiceDoc)
    (payerId : String) : ValidationResult :=
  if invoice.status = .paid then
    { valid := false, error := some "Invoice is already paid" }
  else if invoice.status = .cancelled then
    { valid := false, error := some "Invoice has been cancelled" }
  else if invoice.dueDate < now then
    { valid := false, error := some "Invoice is overdue" }
  else
    { valid := true }

/-- BusinessValidation.validateOrderPayment,
src/shared/middleware/validation.ts lines 166 to 180. -/
def validateOrderPayment (order : OrderDoc) (payerId : String) :
    ValidationResult :=
  if order.status = .paid then
    { valid := false, error := some "Order is already paid" }
  else if order.status = .cancelled then
    { valid := false, error := some "Order has been cancelled" }
  else if order.customerId ≠ payerId then
    { valid := false, error := some "You can only pay for your own orders" }
  else
    { valid := true }

/-- Sum of every walletBalance in the store. -/
def sumBalances (s : DB) : ℤ :=
  (s.users.map (fun p => p.2.walletBalance)).sum

end FlowApps

namespace FlowApps

/-! Basic lemmas about the document store operations. -/

theorem getDoc_mem {A : Type} : ∀ {col : List (String × A)} {k : String} {v : A},
    getDoc col k = some v → (k, v) ∈ col := by
  intro col
  induction col with
  | nil => intro k v h; simp [getDoc] at h
  | cons p rest ih =>
    intro k v h
    rw [getDoc] at h
    by_cases hb : p.1 = k
    · rw [if_pos (by simpa using hb)] at h
      have h2 : p.2 = v := by injection h
      exact List.mem_cons.2 (Or.inl (by cases p; simp_all))
    · rw [if_neg (by simpa using hb)] at h
      exact List.mem_cons.2 (Or.inr (ih h))

theorem setDoc_forall {A : Type} (P : String × A → Prop)
    {col : List (String × A)} (id : String) (f : A → A)
    (h : ∀ p ∈ col, P p)
    (hf : ∀ p ∈ col, P (p.1, f p.2)) :
    ∀ p ∈ setDoc col id f, P p := by
  intro p hp
  simp only [setDoc, List.mem_map] at hp
  obtain ⟨q, hq, rfl⟩ := hp
  split
  · exact hf q hq
  · exact h q hq

theorem getDoc_setDoc_self {A : Type} : ∀ (col : List (String × A)) (id : String)
    (f : A → A), getDoc (setDoc col id f) id = (getDoc col id).map f := by
  intro col
  induction col with
  | nil => intro id f; rfl
  | cons p rest ih =>
    intro id f
    have hrec := ih id f
    by_cases hb : p.1 = id
    · simp [getDoc, setDoc, hb]
    · simp only [getDoc, setDoc, List.map_cons, beq_iff_eq] at hrec ⊢
      simp [hb, hrec]

theorem getDoc_setDoc_ne {A : Type} : ∀ (col : List (String × A)) (id k : String)
    (f : A → A), k ≠ id → getDoc (setDoc col id f) k = getDoc col k := by
  intro col
  induction col with
  | nil => intro id k f _; rfl
  | cons p rest ih =>
    intro id k f hne
    have hrec := ih id k f hne
    have hne2 : id ≠ k := Ne.symm hne
    by_cases hb : p.1 = id
    · have hk : ¬ p.1 = k := fun h => hne (by rw [← h, hb])
      simp only [getDoc, setDoc, List.map_cons, beq_iff_eq] at hrec ⊢
      simp [hb, hk, hne, hne2, hrec]
    · by_cases hk : p.1 = k
      · simp [getDoc, setDoc, hb, hk, hne, hne2]
      · simp only [getDoc, setDoc, List.map_cons, beq_iff_eq] at hrec ⊢
        simp [hb, hk, hrec]

end FlowApps

namespace FlowApps

/-! Structural facts about the operations: which collections they can
touch, and full rollback on failure. -/

theorem processPayment_fields (s : DB) (d : PayInput) :
    (processPayment s d).2.companies = s.companies ∧
    (processPayment s d).2.invoices = s.invoices ∧
    (processPayment s d).2.orders = s.orders ∧
    (processPayment s d).2.products = s.products := by
  unfold processPayment
  repeat' split
  all_goals exact ⟨rfl, rfl, rfl, rfl⟩

theorem processPayment_err_state (s : DB) (d : PayInput) (e : String) (s2 : DB)
    (h : processPayment s d = (.err e, s2)) : s2 = s := by
  unfold processPayment at h
  repeat' split at h
  all_goals injection h with h1 h2
  all_goals first | exact h2.symm | exact PayResult.noConfusion h1

theorem stockTxn_fields : ∀ (items : List OrderItem) (s s1 : DB),
    stockTxn s items = .ok s1 →
    s1.users = s.users ∧ s1.companies = s.companies ∧
    s1.invoices = s.invoices ∧ s1.orders = s.orders ∧
    s1.transactions = s.transactions := by
  intro items
  induction items with
  | nil =>
    intro s s1 h
    rw [stockTxn] at h
    injection h with h
    subst h
    exact ⟨rfl, rfl, rfl, rfl, rfl⟩
  | cons it rest ih =>
    intro s s1 h
    rw [stockTxn] at h
    split at h
    · cases h
    · split at h
      · cases h
      · have := ih _ _ h
        simpa using this

end FlowApps

namespace FlowApps

/-! Non-negativity invariant machinery. -/

/-- Every stored account has a non-negative wallet balance. -/
def balancesNonneg (s : DB) : Prop :=
  ∀ p ∈ s.users, 0 ≤ p.2.walletBalance

instance (s : DB) : Decidable (balancesNonneg s) :=
  inferInstanceAs (Decidable (∀ p ∈ s.users, 0 ≤ p.2.walletBalance))

/-- Every stored invoice and order carries a non-negative total. -/
def totalsNonneg (s : DB) : Prop :=
  (∀ p ∈ s.invoices, 0 ≤ p.2.total) ∧ (∀ p ∈ s.orders, 0 ≤ p.2.total)

instance (s : DB) : Decidable (totalsNonneg s) :=
  inferInstanceAs (Decidable ((∀ p ∈ s.invoices, 0 ≤ p.2.total) ∧
    (∀ p ∈ s.orders, 0 ≤ p.2.total)))

/-- Combined state invariant used for the preservation argument. -/
def goodState (s : DB) : Prop := balancesNonneg s ∧ totalsNonneg s

instance (s : DB) : Decidable (goodState s) :=
  inferInstanceAs (Decidable (balancesNonneg s ∧ totalsNonneg s))

theorem processPayment_balancesNonneg (s : DB) (d : PayInput)
    (ha : 0 ≤ d.amount) (h : balancesNonneg s) :
    balancesNonneg (processPayment s d).2 := by
  unfold processPayment
  split
  · exact h
  rename_i payerData hp
  split
  · exact h
  rename_i receiverData hr
  split
  · exact h
  split
  · exact h
  rename_i hact hcond
  have hpb : (0:ℤ) ≤ payerData.walletBalance := h _ (getDoc_mem hp)
  have hrb : (0:ℤ) ≤ receiverData.walletBalance := h _ (getDoc_mem hr)
  intro p hmem
  dsimp only at hmem
  split at hmem
  · rename_i htype
    have hge : ¬ payerData.walletBalance < d.amount := fun hlt => hcond ⟨htype, hlt⟩
    have h1 : ∀ q ∈ setDoc s.users d.payerId
        (fun u => { u with walletBalance := payerData.walletBalance - d.amount }),
        (0:ℤ) ≤ q.2.walletBalance := by
      refine setDoc_forall (fun q : String × UserDoc => (0:ℤ) ≤ q.2.walletBalance) d.payerId _
        (fun q hq => h q hq) ?_
      intro q hq
      simpa using le_of_not_lt hge
    have h2 : ∀ q ∈ setDoc (setDoc s.users d.payerId
        (fun u => { u with walletBalance := payerData.walletBalance - d.amount }))
        d.receiverId
        (fun u => { u with walletBalance := receiverData.walletBalance + d.amount }),
        (0:ℤ) ≤ q.2.walletBalance := by
      refine setDoc_forall (fun q : String × UserDoc => (0:ℤ) ≤ q.2.walletBalance) d.receiverId _ h1 ?_
      intro q hq
      simpa using add_nonneg hrb ha
    exact h2 p hmem
  · have h2 : ∀ q ∈ setDoc s.users d.receiverId
        (fun u => { u with walletBalance := receiverData.walletBalance + d.amount }),
        (0:ℤ) ≤ q.2.walletBalance := by
      refine setDoc_forall (fun q : String × UserDoc => (0:ℤ) ≤ q.2.walletBalance) d.receiverId _
        (fun q hq => h q hq) ?_
      intro q hq
      simpa using add_nonneg hrb ha
    exact h2 p hmem

end FlowApps

namespace FlowApps

theorem processPayment_goodState (s : DB) (d : PayInput)
    (ha : 0 ≤ d.amount) (h : goodState s) : goodState (processPayment s d).2 := by
  obtain ⟨hb, hi, ho⟩ := h
  refine ⟨processPayment_balancesNonneg s d ha hb, ?_, ?_⟩
  · intro p hp
    rw [(processPayment_fields s d).2.1] at hp
    exact hi p hp
  · intro p hp
    rw [(processPayment_fields s d).2.2.1] at hp
    exact ho p hp

theorem payInvoiceCheck_ok (s : DB) (invoiceId : String) (invoice : InvoiceDoc)
    (company : CompanyDoc)
    (h : payInvoiceCheck s invoiceId = .ok (invoice, company)) :
    getDoc s.invoices invoiceId = some invoice ∧ invoice.status ≠ .paid ∧
    getDoc s.companies invoice.companyId = some company := by
  unfold payInvoiceCheck at h
  split at h
  · cases h
  rename_i inv hinv
  split at h
  · cases h
  rename_i hstat
  split at h
  · cases h
  rename_i comp hcomp
  injection h with h1
  cases h1
  exact ⟨hinv, hstat, hcomp⟩

theorem payInvoicePatch_goodState (s : DB) (iid txId : String)
    (h : goodState s) : goodState (payInvoicePatch s iid txId) := by
  obtain ⟨hb, hi, ho⟩ := h
  refine ⟨hb, ?_, ho⟩
  intro p hp
  simp only [payInvoicePatch] at hp
  exact setDoc_forall (fun q : String × InvoiceDoc => (0:ℤ) ≤ q.2.total) iid _
    hi (fun q hq => hi q hq) p hp

theorem payInvoice_goodState (s : DB) (iid pid : String) (h : goodState s) :
    goodState (payInvoice s iid pid).2 := by
  unfold payInvoice
  split
  · exact h
  rename_i invoice company hchk
  have hinv := (payInvoiceCheck_ok s iid invoice company hchk).1
  have htot : (0:ℤ) ≤ invoice.total := h.2.1 _ (getDoc_mem hinv)
  have hg := processPayment_goodState s (payInvoiceData iid pid invoice company)
    (by simpa [payInvoiceData] using htot) h
  split
  · rename_i txId s1 hpp
    rw [hpp] at hg
    exact payInvoicePatch_goodState s1 iid txId hg
  · rename_i e s1 hpp
    rw [hpp] at hg
    exact hg

theorem updateProductStock_ok (s : DB) (items : List OrderItem) (s1 : DB)
    (h : updateProductStock s items = (none, s1)) :
    stockTxn s items = .ok s1 := by
  unfold updateProductStock at h
  split at h
  · rename_i s2 heq
    injection h with h1 h2
    rw [heq, h2]
  · rename_i e heq
    injection h with h1 h2
    cases h1

theorem payOrder_goodState (s : DB) (oid pid : String) (h : goodState s) :
    goodState (payOrder s oid pid).2 := by
  unfold payOrder
  split
  · exact h
  rename_i order ho
  split
  · exact h
  split
  · exact h
  rename_i company hc
  split
  · exact h
  rename_i s1 hupd
  have hfields := stockTxn_fields order.items s s1 (updateProductStock_ok s order.items s1 hupd)
  obtain ⟨hu, hcs, his, hos, hts⟩ := hfields
  have htot : (0:ℤ) ≤ order.total := h.2.2 _ (getDoc_mem ho)
  have hg1 : goodState s1 := by
    obtain ⟨hb, hi, hor⟩ := h
    refine ⟨?_, ?_, ?_⟩
    · intro p hp; rw [hu] at hp; exact hb p hp
    · intro p hp; rw [his] at hp; exact hi p hp
    · intro p hp; rw [hos] at hp; exact hor p hp
  have hg2 := processPayment_goodState s1 (payOrderData oid pid order company)
    (by simpa [payOrderData] using htot) hg1
  split
  · rename_i txId s2 hpp
    rw [hpp] at hg2
    obtain ⟨hb2, hi2, ho2⟩ := hg2
    refine ⟨hb2, hi2, ?_⟩
    intro p hp
    dsimp only at hp
    exact setDoc_forall (fun q : String × OrderDoc => (0:ℤ) ≤ q.2.total) oid _
      ho2 (fun q hq => ho2 q hq) p hp
  · rename_i e s2 hpp
    rw [hpp] at hg2
    exact hg2

theorem topUpWallet_goodState (s : DB) (uid : String) (a : ℤ) (m : String)
    (md : Metadata) (ha : 0 ≤ a) (h : goodState s) :
    goodState (topUpWallet s uid a m md).2 :=
  processPayment_goodState s _ ha h

theorem transferMoney_goodState (s : DB) (fu em : String) (a : ℤ) (de : String)
    (ha : 0 ≤ a) (h : goodState s) :
    goodState (transferMoney s fu em a de).2 := by
  unfold transferMoney
  split
  · exact h
  · exact processPayment_goodState s _ ha h

/-- The public operations of the settlement surface, the claims quantify
over sequences of them. -/
inductive Op
  | pay (d : PayInput)
  | invoice (invoiceId payerId : String)
  | order (orderId payerId : String)
  | topup (userId : String) (amount : ℤ) (method : String) (md : Metadata)
  | xfer (fromUserId toUserEmail : String) (amount : ℤ) (description : String)

/-- One public operation applied to the store. -/
def runOp (s : DB) : Op → DB
  | .pay d => (processPayment s d).2
  | .invoice iid pid => (payInvoice s iid pid).2
  | .order oid pid => (payOrder s oid pid).2
  | .topup uid a m md => (topUpWallet s uid a m md).2
  | .xfer fu em a de => (transferMoney s fu em a de).2

/-- A sequence of public operations applied in order. -/
def runOps (s : DB) (ops : List Op) : DB := ops.foldl runOp s

/-- The explicit amount argument of the operation is non-negative;
invoice and order settlements take their amount from the store instead. -/
def opAmountNonneg : Op → Prop
  | .pay d => 0 ≤ d.amount
  | .invoice _ _ => True
  | .order _ _ => True
  | .topup _ a _ _ => 0 ≤ a
  | .xfer _ _ a _ => 0 ≤ a

instance : (op : Op) → Decidable (opAmountNonneg op)
  | .pay d => inferInstanceAs (Decidable (0 ≤ d.amount))
  | .invoice _ _ => inferInstanceAs (Decidable True)
  | .order _ _ => inferInstanceAs (Decidable True)
  | .topup _ a _ _ => inferInstanceAs (Decidable (0 ≤ a))
  | .xfer _ _ a _ => inferInstanceAs (Decidable (0 ≤ a))

theorem runOp_goodState (s : DB) (op : Op) (h : goodState s)
    (ha : opAmountNonneg op) : goodState (runOp s op) := by
  cases op with
  | pay d => exact processPayment_goodState s d ha h
  | invoice iid pid => exact payInvoice_goodState s iid pid h
  | order oid pid => exact payOrder_goodState s oid pid h
  | topup uid a m md => exact topUpWallet_goodState s uid a m md ha h
  | xfer fu em a de => exact transferMoney_goodState s fu em a de ha h

end FlowApps

namespace FlowApps

/-- Initial store for the conservation scenario: one active user with
balance 20 whose email is known. -/
def c1State : DB :=
  { users := [("u", { email := "u@x", walletBalance := 20, isActive := true })]
    companies := []
    invoices := []
    orders := []
    products := []
    transactions := [] }

/-- C1: the conservation claim fails on the code.  transferMoney resolves
the receiver by email; when the email belongs to the payer, the ledger
transfer has payerId equal to receiverId and type transfer.  The receiver
credit is computed from the snapshot balance and overwrites the payer
debit on the same document, so the single successful transfer of amount
10 raises the total of all wallet balances from 20 to 30 although it is
not a wallet_topup. -/
theorem c1_self_transfer_creates_money :
    sumBalances c1State = 20 ∧
    (transferMoney c1State "u" "u@x" 10 "to me").1 = .ok "tx0" ∧
    sumBalances (transferMoney c1State "u" "u@x" 10 "to me").2 = 30 ∧
    ((transferMoney c1State "u" "u@x" 10 "to me").2.transactions.map
      (fun p => (p.2.type, p.2.status, p.2.amount)))
      = [(TxType.transfer, TxStatus.completed, 10)] := by
  decide

/-- Initial store for the negative top-up counterexample: one active user
with balance 0. -/
def c2State : DB :=
  { users := [("z", { email := "z@x", walletBalance := 0, isActive := true })]
    companies := []
    invoices := []
    orders := []
    products := []
    transactions := [] }

/-- C2 counterexample: from a state where every balance is non-negative,
a single topUpWallet with a negative amount drives the balance below
zero, because no path validates the amount.  This refutes the claim for
arbitrary argument values. -/
theorem c2_negative_topup_reaches_negative_balance :
    balancesNonneg c2State ∧
    ¬ balancesNonneg (topUpWallet c2State "z" (-5) "momo").2 ∧
    getDoc (topUpWallet c2State "z" (-5) "momo").2.users "z"
      = some { email := "z@x", walletBalance := -5, isActive := true } := by
  refine ⟨by decide, by decide, by decide⟩

/-- C2 (amended): starting from a state in which every walletBalance is
non-negative and every stored invoice and order total is non-negative,
any sequence of the public operations whose explicit amount arguments
are non-negative keeps every walletBalance non-negative. -/
theorem c2_balances_nonneg_preserved (s : DB) (ops : List Op)
    (h : goodState s) (ha : ∀ op ∈ ops, opAmountNonneg op) :
    balancesNonneg (runOps s ops) := by
  induction ops generalizing s with
  | nil => exact h.1
  | cons op rest ih =>
    exact ih (runOp s op)
      (runOp_goodState s op h (ha op (List.mem_cons_self op rest)))
      (fun o ho => ha o (List.mem_cons_of_mem _ ho))

/-- Invoice used by the C2 witness store. -/
def c2wInvoice : InvoiceDoc :=
  { companyId := "co"
    clientEmail := "a@x"
    invoiceNumber := "INV-1"
    total := 7
    status := .sent
    dueDate := 100 }

/-- Store for the C2 witness: two users and an invoice with a
non-negative total. -/
def c2wState : DB :=
  { users := [("a", { email := "a@x", walletBalance := 30, isActive := true }),
              ("b", { email := "b@x", walletBalance := 0, isActive := true })]
    companies := [("co", { ownerId := "b" })]
    invoices := [("inv1", c2wInvoice)]
    orders := []
    products := []
    transactions := [] }

/-- Operation sequence for the C2 witness. -/
def c2wOps : List Op :=
  [.topup "a" 5 "momo" {}, .invoice "inv1" "a", .xfer "a" "b@x" 3 "gift"]

/-- Witness for the C2 theorem at a concrete store and operation list. -/
theorem c2_balances_nonneg_preserved_witness :
    balancesNonneg (runOps c2wState c2wOps) :=
  c2_balances_nonneg_preserved c2wState c2wOps (by decide) (by decide)

/-- Derived predicate on the input of processPayment: the first
precondition check of the source that fails, together with the error
message thrown there; none when every precondition holds. -/
def payPrecondError (s : DB) (d : PayInput) : Option String :=
  match getDoc s.users d.payerId with
  | none => some "Payer not found"
  | some payerData =>
    match getDoc s.users d.receiverId with
    | none => some "Receiver not found"
    | some receiverData =>
      if !payerData.isActive || !receiverData.isActive then
        some "One or more users are inactive"
      else if d.type ≠ .wallet_topup ∧ payerData.walletBalance < d.amount then
        some "Insufficient wallet balance"
      else none

/-- C3: when any precondition of the ledger transfer is violated,
processPayment fails with the message of the violated check, the whole
store is unchanged, and in particular no account is touched and no
transaction record is inserted. -/
theorem c3_precond_violation_no_side_effects (s : DB) (d : PayInput)
    (e : String) (h : payPrecondError s d = some e) :
    processPayment s d = (.err e, s) := by
  unfold payPrecondError at h
  unfold processPayment
  repeat' split at h
  all_goals first
    | (injection h with h; subst h; simp_all)
    | cases h

/-- Input with an inactive receiver for the C3 witness. -/
def c3State : DB :=
  { users := [("p", { email := "p@x", walletBalance := 50, isActive := true }),
              ("r", { email := "r@x", walletBalance := 0, isActive := false })]
    companies := []
    invoices := []
    orders := []
    products := []
    transactions := [] }

/-- Argument record for the C3 witness. -/
def c3Input : PayInput :=
  { payerId := "p", receiverId := "r", amount := 10, type := .transfer,
    sourceApp := "payflow", description := "t" }

/-- Witness for the C3 theorem: an inactive receiver aborts the transfer
with the inactivity message and leaves the store untouched. -/
theorem c3_precond_violation_witness :
    payPrecondError c3State c3Input = some "One or more users are inactive" ∧
    processPayment c3State c3Input
      = (.err "One or more users are inactive", c3State) :=
  ⟨by decide, c3_precond_violation_no_side_effects c3State c3Input _ (by decide)⟩

end FlowApps

namespace FlowApps

/-- Number of completed transactions whose metadata references the given
invoice. -/
def completedForInvoice (s : DB) (invoiceId : String) : Nat :=
  (s.transactions.filter (fun p =>
    p.2.status == TxStatus.completed &&
    p.2.metadata.invoiceId == some invoiceId)).length

/-- Two concurrent payInvoice calls for the same invoice under the
schedule: A reads and validates, B reads and validates (the invoice
status check is a plain getDoc outside any transaction), A runs the
ledger transfer and patches the invoice, then B runs its ledger transfer
and patches the invoice.  Every step is exactly the corresponding phase
of payInvoice; only the interleaving of the two callers is chosen. -/
def interleavedSettle (s : DB) (invoiceId pA pB : String) :
    PayResult × PayResult × DB :=
  match payInvoiceCheck s invoiceId with
  | .error e => (.err e, .err e, s)
  | .ok (invoice, company) =>
    match processPayment s (payInvoiceData invoiceId pA invoice company) with
    | (.ok txA, sA) =>
      let sA2 := payInvoicePatch sA invoiceId txA
      match processPayment sA2 (payInvoiceData invoiceId pB invoice company) with
      | (.ok txB, sB) => (.ok txA, .ok txB, payInvoicePatch sB invoiceId txB)
      | (.err e, sB) => (.ok txA, .err e, sB)
    | (.err e, sA) =>
      match processPayment sA (payInvoiceData invoiceId pB invoice company) with
      | (.ok txB, sB) => (.err e, .ok txB, payInvoicePatch sB invoiceId txB)
      | (.err e2, sB) => (.err e, .err e2, sB)

/-- Invoice for the double-settlement scenario: unpaid, total 50. -/
def c4Invoice : InvoiceDoc :=
  { companyId := "c1"
    clientEmail := "p1@x"
    invoiceNumber := "INV-4"
    total := 50
    status := .sent
    dueDate := 1000 }

/-- Store for the double-settlement scenario: two funded payers and the
company owner. -/
def c4State : DB :=
  { users := [("p1", { email := "p1@x", walletBalance := 200, isActive := true }),
              ("p2", { email := "p2@x", walletBalance := 100, isActive := true }),
              ("own", { email := "o@x", walletBalance := 0, isActive := true })]
    companies := [("c1", { ownerId := "own" })]
    invoices := [("i1", c4Invoice)]
    orders := []
    products := []
    transactions := [] }

/-- C4: the at-most-one-settlement claim fails on the code.  payInvoice
checks the invoice status with a plain read outside the ledger
transaction and patches the invoice afterwards, so under the interleaving
in which both callers validate before either patches, both ledger
transfers commit: both calls succeed and two completed transactions
reference the same invoice, instead of one success and one
AlreadySettled failure. -/
theorem c4_double_settlement :
    (interleavedSettle c4State "i1" "p1" "p2").1 = .ok "tx0" ∧
    (interleavedSettle c4State "i1" "p1" "p2").2.1 = .ok "tx1" ∧
    completedForInvoice (interleavedSettle c4State "i1" "p1" "p2").2.2 "i1" = 2 ∧
    getDoc (interleavedSettle c4State "i1" "p1" "p2").2.2.users "p1"
      = some { email := "p1@x", walletBalance := 150, isActive := true } ∧
    getDoc (interleavedSettle c4State "i1" "p1" "p2").2.2.users "p2"
      = some { email := "p2@x", walletBalance := 50, isActive := true } := by
  refine ⟨by decide, by decide, by decide, by decide, by decide⟩

/-- Order for the failed-transfer scenario: one line item of quantity 1,
total 5750 smallest currency units (57.50). -/
def c5Order : OrderDoc :=
  { companyId := "c1"
    customerId := "b"
    customerEmail := "b@x"
    items := [{ productId := "pr1", quantity := 1 }]
    total := 5750
    status := .pending }

/-- Product for the failed-transfer scenario: stock 5. -/
def c5Product : ProductDoc :=
  { companyId := "c1"
    name := "Widget"
    quantity := 5
    isActive := true }

/-- Store for the failed-transfer scenario: payer with balance 5000
(50.00), product with stock 5. -/
def c5State : DB :=
  { users := [("b", { email := "b@x", walletBalance := 5000, isActive := true }),
              ("own", { email := "o@x", walletBalance := 0, isActive := true })]
    companies := [("c1", { ownerId := "own" })]
    invoices := []
    orders := [("o1", c5Order)]
    products := [("pr1", c5Product)]
    transactions := [] }

/-- C5: the rollback claim fails on the code.  payOrder commits the stock
decrement in its own transaction before the ledger transfer; when the
transfer then fails with insufficient balance, the source has no restore
step, so the decremented stock persists even though the settlement
failed.  Balances and the order status are indeed unchanged. -/
theorem c5_stock_not_restored :
    (payOrder c5State "o1" "b").1 = .err "Insufficient wallet balance" ∧
    getDoc (payOrder c5State "o1" "b").2.products "pr1"
      = some { companyId := "c1", name := "Widget", quantity := 4, isActive := true } ∧
    (payOrder c5State "o1" "b").2.users = c5State.users ∧
    getDoc (payOrder c5State "o1" "b").2.orders "o1" = some c5Order := by
  refine ⟨by decide, by decide, by decide, by decide⟩

end FlowApps

namespace FlowApps

/-- Cancelled and long-overdue invoice for the C7 counterexample. -/
def c7Invoice : InvoiceDoc :=
  { companyId := "c1"
    clientEmail := "p@x"
    invoiceNumber := "INV-7"
    total := 10
    status := .cancelled
    dueDate := -100 }

/-- Store for the C7 counterexample. -/
def c7State : DB :=
  { users := [("p", { email := "p@x", walletBalance := 100, isActive := true }),
              ("own", { email := "o@x", walletBalance := 0, isActive := true })]
    companies := [("c1", { ownerId := "own" })]
    invoices := [("i7", c7Invoice)]
    orders := []
    products := []
    transactions := [] }

/-- C7 counterexample: payInvoice checks only for status paid.  A
cancelled invoice whose dueDate lies in the past (so at wall-clock time 0
it is also overdue) is settled successfully and flipped to paid, although
the validation gate would reject it; payInvoice never calls that gate. -/
theorem c7_cancelled_invoice_settles :
    c7Invoice.status = .cancelled ∧
    c7Invoice.dueDate < 0 ∧
    validateInvoicePayment 0 c7Invoice "p"
      = { valid := false, error := some "Invoice has been cancelled" } ∧
    (payInvoice c7State "i7" "p").1 = .ok "tx0" ∧
    (getDoc (payInvoice c7State "i7" "p").2.invoices "i7").map
      (fun i => i.status) = some .paid := by
  refine ⟨by decide, by decide, by decide, by decide, by decide⟩

/-- C7 (amended): payInvoice rejects an invoice exactly when its status
is already paid; the rejection happens before any transfer and leaves the
whole store unchanged.  Cancelled or overdue invoices are not rejected by
payInvoice; those checks exist only in the uncalled validation gate. -/
theorem c7_paid_rejected_before_transfer (s : DB) (iid pid : String)
    (inv : InvoiceDoc) (hinv : getDoc s.invoices iid = some inv)
    (hpaid : inv.status = .paid) :
    payInvoice s iid pid = (.err "Invoice already paid", s) := by
  unfold payInvoice payInvoiceCheck
  simp [hinv, hpaid]

/-- Store for the C7 witness: an already paid invoice. -/
def c7wState : DB :=
  { users := [("p", { email := "p@x", walletBalance := 100, isActive := true })]
    companies := [("c1", { ownerId := "p" })]
    invoices := [("i7", { c7Invoice with status := .paid })]
    orders := []
    products := []
    transactions := [] }

/-- Witness for the C7 theorem on a concrete paid invoice. -/
theorem c7_paid_rejected_witness :
    payInvoice c7wState "i7" "p" = (.err "Invoice already paid", c7wState) :=
  c7_paid_rejected_before_transfer c7wState "i7" "p"
    { c7Invoice with status := .paid } (by decide) (by decide)

/-- Metadata recorded by the MoMo top-up path, carrying the provider
reference the webhook later resolves. -/
def c8Metadata : Metadata :=
  { momoReference := some "R1", phoneNumber := some "76000000" }

/-- Store for the C8 scenario: one active user about to top up. -/
def c8State : DB :=
  { users := [("u", { email := "u@x", walletBalance := 0, isActive := true })]
    companies := []
    invoices := []
    orders := []
    products := []
    transactions := [] }

/-- The store after the MoMo top-up has succeeded: processPayment created
the transaction directly with status completed. -/
def c8AfterTopup : DB := (topUpWallet c8State "u" 100 "momo" c8Metadata).2

/-- C8: the immutability claim fails on the code.  Every transaction is
created with status completed, and the webhook handler resolves a
transaction by its stored momoReference and overwrites its status from
the webhook payload without checking the current status.  A FAILED
webhook for a completed top-up flips the completed record to failed. -/
theorem c8_webhook_mutates_completed :
    (getDoc c8AfterTopup.transactions "tx0").map (fun t => t.status)
      = some .completed ∧
    (getDoc c8AfterTopup.transactions "tx0").map (fun t => t.metadata.momoReference)
      = some (some "R1") ∧
    (getDoc (momoWebhook c8AfterTopup "R1" "FAILED").transactions "tx0").map
      (fun t => t.status) = some .failed := by
  refine ⟨by decide, by decide, by decide⟩

/-- Store for the C9 counterexample: two distinct active users. -/
def c9State : DB :=
  { users := [("a", { email := "a@x", walletBalance := 10, isActive := true }),
              ("b", { email := "b@x", walletBalance := 5, isActive := true })]
    companies := []
    invoices := []
    orders := []
    products := []
    transactions := [] }

/-- A direct processPayment call of type wallet_topup between distinct
accounts, as the public callable payment entry point permits. -/
def c9Input : PayInput :=
  { payerId := "a"
    receiverId := "b"
    amount := 7
    type := .wallet_topup
    sourceApp := "payflow"
    description := "direct topup" }

/-- C9 counterexample: processPayment accepts a wallet_topup whose payer
and receiver differ; it succeeds, no account is debited, and the created
wallet_topup transaction has distinct payer and receiver, refuting the
claim that every successful wallet_topup is a self transfer. -/
theorem c9_distinct_topup_accepted :
    (processPayment c9State c9Input).1 = .ok "tx0" ∧
    ((processPayment c9State c9Input).2.transactions.map
      (fun p => (p.2.payerId, p.2.receiverId, p.2.type, p.2.status)))
      = [("a", "b", TxType.wallet_topup, TxStatus.completed)] ∧
    ("a" : String) ≠ "b" ∧
    getDoc (processPayment c9State c9Input).2.users "a"
      = some { email := "a@x", walletBalance := 10, isActive := true } ∧
    getDoc (processPayment c9State c9Input).2.users "b"
      = some { email := "b@x", walletBalance := 12, isActive := true } := by
  refine ⟨by decide, by decide, by decide, by decide, by decide⟩

end FlowApps

namespace FlowApps

/-- The transaction record a topUpWallet call inserts. -/
def topupTx (uid : String) (a : ℤ) (m : String) (md : Metadata) : TransactionDoc :=
  { payerId := uid
    receiverId := uid
    companyId := none
    amount := a
    type := .wallet_topup
    status := .completed
    sourceApp := "payflow"
    description := "Wallet top-up via " ++ m
    metadata := { md with paymentMethod := some (md.paymentMethod.getD m) } }

/-- C9 (amended): every top-up issued through topUpWallet is a self
transfer of an existing active account: the call succeeds, no debit is
buffered, the account is credited by exactly the amount, every other
account is untouched, and a completed wallet_topup transaction whose
payer and receiver are both that account is appended. -/
theorem c9_topup_self_credit (s : DB) (uid : String) (a : ℤ) (m : String)
    (md : Metadata) (u : UserDoc)
    (hu : getDoc s.users uid = some u) (hact : u.isActive = true) :
    topUpWallet s uid a m md =
      (.ok (freshTxId s),
       { s with
         users := (setDoc s.users uid
           (fun v => { v with walletBalance := u.walletBalance + a }))
         transactions := s.transactions ++ [(freshTxId s, topupTx uid a m md)] }) ∧
    getDoc (setDoc s.users uid
      (fun v => { v with walletBalance := u.walletBalance + a })) uid
      = some { u with walletBalance := u.walletBalance + a } ∧
    (topupTx uid a m md).payerId = uid ∧
    (topupTx uid a m md).receiverId = uid ∧
    (topupTx uid a m md).status = .completed ∧
    (topupTx uid a m md).type = .wallet_topup ∧
    ∀ k, ¬ k = uid → getDoc (setDoc s.users uid
      (fun v => { v with walletBalance := u.walletBalance + a })) k
      = getDoc s.users k := by
  refine ⟨?_, ?_, rfl, rfl, rfl, rfl, ?_⟩
  · unfold topUpWallet processPayment topupTx
    simp [hu, hact]
  · rw [getDoc_setDoc_self, hu]
    rfl
  · intro k hk
    exact getDoc_setDoc_ne _ _ _ _ hk

/-- Store for the C9 witness: a single active account. -/
def c9wState : DB :=
  { users := [("w", { email := "w@x", walletBalance := 11, isActive := true })]
    companies := []
    invoices := []
    orders := []
    products := []
    transactions := [] }

/-- Witness for the C9 theorem: the concrete top-up succeeds and credits
the account by exactly the amount. -/
theorem c9_topup_self_credit_witness :
    topUpWallet c9wState "w" 4 "bank_transfer" {} =
      (.ok "tx0",
       { c9wState with
         users := (setDoc c9wState.users "w"
           (fun v => { v with walletBalance := (11:ℤ) + 4 }))
         transactions := c9wState.transactions ++
           [("tx0", topupTx "w" 4 "bank_transfer" {})] }) :=
  (c9_topup_self_credit c9wState "w" 4 "bank_transfer" {}
    { email := "w@x", walletBalance := 11, isActive := true }
    (by decide) (by decide)).1

theorem processPayment_ok (s : DB) (d : PayInput) (payer receiver : UserDoc)
    (hp : getDoc s.users d.payerId = some payer)
    (hr : getDoc s.users d.receiverId = some receiver)
    (hpa : payer.isActive = true) (hra : receiver.isActive = true)
    (hbal : d.type ≠ .wallet_topup → ¬ payer.walletBalance < d.amount) :
    (processPayment s d).1 = .ok (freshTxId s) := by
  unfold processPayment
  have hcond : ¬(d.type ≠ TxType.wallet_topup ∧ payer.walletBalance < d.amount) :=
    fun hc => hbal hc.1 hc.2
  simp [hp, hr, hpa, hra, hcond]

end FlowApps

namespace FlowApps

/-- Product for the ownership scenario. -/
def c10Product : ProductDoc :=
  { companyId := "c1"
    name := "Gadget"
    quantity := 3
    isActive := true }

/-- Order owned by alice for the ownership scenario. -/
def c10Order : OrderDoc :=
  { companyId := "c1"
    customerId := "alice"
    customerEmail := "alice@x"
    items := [{ productId := "g1", quantity := 1 }]
    total := 40
    status := .pending }

/-- Store for the ownership scenario: the order belongs to alice, bob is
a funded unrelated account. -/
def c10State : DB :=
  { users := [("alice", { email := "alice@x", walletBalance := 0, isActive := true }),
              ("bob", { email := "bob@x", walletBalance := 100, isActive := true }),
              ("own", { email := "o@x", walletBalance := 0, isActive := true })]
    companies := [("c1", { ownerId := "own" })]
    invoices := []
    orders := [("o1", c10Order)]
    products := [("g1", c10Product)]
    transactions := [] }

/-- C10 counterexample: payOrder never reads order.customerId, so bob
settles an order owned by alice: the call succeeds, the order flips to
paid and bob is debited, instead of failing with the ownership error. -/
theorem c10_nonowner_settles_order :
    c10Order.customerId = "alice" ∧
    ("alice" : String) ≠ "bob" ∧
    (payOrder c10State "o1" "bob").1 = .ok "tx0" ∧
    (getDoc (payOrder c10State "o1" "bob").2.orders "o1").map
      (fun o => o.status) = some .paid ∧
    getDoc (payOrder c10State "o1" "bob").2.users "bob"
      = some { email := "bob@x", walletBalance := 60, isActive := true } := by
  refine ⟨by decide, by decide, by decide, by decide, by decide⟩

/-- C10 (amended): the ownership rule exists only in the validation gate:
validateOrderPayment rejects a payer who is not the customer of the
order, but payOrder never invokes it, so under the remaining settlement
conditions the foreign payer settles the order successfully. -/
theorem c10_ownership_not_enforced (s : DB) (oid pid : String)
    (o : OrderDoc) (comp : CompanyDoc) (s1 : DB) (payer owner : UserDoc)
    (ho : getDoc s.orders oid = some o)
    (hnp : ¬ o.status = .paid)
    (hnc : ¬ o.status = .cancelled)
    (hmm : ¬ o.customerId = pid)
    (hcomp : getDoc s.companies o.companyId = some comp)
    (hstock : stockTxn s o.items = .ok s1)
    (hpayer : getDoc s.users pid = some payer)
    (hpact : payer.isActive = true)
    (howner : getDoc s.users comp.ownerId = some owner)
    (hoact : owner.isActive = true)
    (hbal : o.total ≤ payer.walletBalance) :
    validateOrderPayment o pid
      = { valid := false, error := some "You can only pay for your own orders" } ∧
    (payOrder s oid pid).1 = .ok (freshTxId s1) := by
  constructor
  · unfold validateOrderPayment
    rw [if_neg hnp, if_neg hnc, if_pos hmm]
  · have hf := stockTxn_fields o.items s s1 hstock
    have hups : updateProductStock s o.items = (none, s1) := by
      unfold updateProductStock
      rw [hstock]
    have hok := processPayment_ok s1 (payOrderData oid pid o comp) payer owner
      (by simpa [payOrderData, hf.1] using hpayer)
      (by simpa [payOrderData, hf.1] using howner)
      hpact hoact
      (fun _ => by simpa [payOrderData] using not_lt.2 hbal)
    unfold payOrder
    simp only [ho, if_neg hnp, hcomp, hups]
    rcases hpp : processPayment s1 (payOrderData oid pid o comp) with ⟨r, s2⟩
    rw [hpp] at hok
    have hr : r = .ok (freshTxId s1) := hok
    subst hr
    simp [hpp]

/-- Stock state after the decrement of the ownership scenario. -/
def c10s1 : DB := (updateProductStock c10State c10Order.items).2

/-- Witness for the C10 theorem at the concrete ownership scenario. -/
theorem c10_ownership_not_enforced_witness :
    validateOrderPayment c10Order "bob"
      = { valid := false, error := some "You can only pay for your own orders" } ∧
    (payOrder c10State "o1" "bob").1 = .ok (freshTxId c10s1) :=
  c10_ownership_not_enforced c10State "o1" "bob" c10Order { ownerId := "own" }
    c10s1
    { email := "bob@x", walletBalance := 100, isActive := true }
    { email := "o@x", walletBalance := 0, isActive := true }
    (by decide) (by decide) (by decide) (by decide) (by decide) (by rfl)
    (by decide) (by decide) (by decide) (by decide) (by decide)

end FlowApps

namespace FlowApps

/-- Executable check that a line item requests more than the stored
quantity of its product. -/
def itemShort (s : DB) (it : OrderItem) : Bool :=
  match getDoc s.products it.productId with
  | none => false
  | some p => decide (p.quantity < it.quantity)

/-- Relation between the buffered state of the stock transaction and the
starting state: the same product ids exist, no quantity has grown, and
names are unchanged. -/
def prodsLe (s2 s : DB) : Prop :=
  (∀ k, (getDoc s2.products k).isSome = (getDoc s.products k).isSome) ∧
  (∀ k p2 p, getDoc s2.products k = some p2 → getDoc s.products k = some p →
    p2.quantity ≤ p.quantity ∧ p2.name = p.name)

theorem prodsLe_refl (s : DB) : prodsLe s s := by
  constructor
  · intro k
    rfl
  · intro k p2 p h2 h
    rw [h2] at h
    injection h with h
    subst h
    exact ⟨le_refl _, rfl⟩

theorem stockTxn_insufficient : ∀ (items : List OrderItem) (s2 s : DB),
    prodsLe s2 s →
    (∀ it ∈ items, (getDoc s.products it.productId).isSome = true) →
    (∀ it ∈ items, 0 ≤ it.quantity) →
    (∃ it ∈ items, itemShort s it = true) →
    ∃ nm, stockTxn s2 items = .error ("Insufficient stock for " ++ nm) ∧
      ∃ k p, getDoc s.products k = some p ∧ p.name = nm := by
  intro items
  induction items with
  | nil =>
    intro s2 s _ _ _ hfail
    obtain ⟨it, hit, _⟩ := hfail
    cases hit
  | cons it rest ih =>
    intro s2 s hrel hex hpos hfail
    obtain ⟨p, hp⟩ := Option.isSome_iff_exists.1
      (hex it (List.mem_cons_self it rest))
    have hsome2 : (getDoc s2.products it.productId).isSome = true := by
      rw [hrel.1, hp]
      rfl
    obtain ⟨p2, hp2⟩ := Option.isSome_iff_exists.1 hsome2
    obtain ⟨hqle, hname⟩ := hrel.2 _ p2 p hp2 hp
    simp only [stockTxn, hp2]
    by_cases hlt : p2.quantity < it.quantity
    · rw [if_pos hlt]
      exact ⟨p2.name, rfl, it.productId, p, hp, hname.symm⟩
    · rw [if_neg hlt]
      refine ih _ s ⟨?_, ?_⟩
        (fun it2 h2 => hex it2 (List.mem_cons_of_mem _ h2))
        (fun it2 h2 => hpos it2 (List.mem_cons_of_mem _ h2)) ?_
      · intro k
        try dsimp only
        by_cases hk : k = it.productId
        · subst hk
          rw [getDoc_setDoc_self, hp2, hp]
          rfl
        · rw [getDoc_setDoc_ne _ _ _ _ hk]
          exact hrel.1 k
      · intro k q2 q hq2 hq
        try dsimp only at hq2
        by_cases hk : k = it.productId
        · subst hk
          rw [getDoc_setDoc_self, hp2] at hq2
          simp only [Option.map_some'] at hq2
          injection hq2 with hq2
          subst hq2
          rw [hp] at hq
          injection hq with hq
          subst hq
          have h0 : 0 ≤ it.quantity := hpos it (List.mem_cons_self it rest)
          exact ⟨show p2.quantity - it.quantity ≤ p.quantity by omega, hname⟩
        · rw [getDoc_setDoc_ne _ _ _ _ hk] at hq2
          exact hrel.2 k q2 q hq2 hq
      · obtain ⟨w, hw, hws⟩ := hfail
        rcases List.mem_cons.1 hw with h | h
        · subst h
          exfalso
          simp only [itemShort, hp, decide_eq_true_eq] at hws
          have h1 := le_of_not_lt hlt
          omega
        · exact ⟨w, h, hws⟩

/-- C6: an order whose item list asks for more of some product than its
stored quantity fails as a whole.  The stock transaction aborts, payOrder
returns the insufficient stock error naming a stored product, and the
entire store is returned unchanged, so every product of the order, not
just the offending one, keeps its quantity. -/
theorem c6_insufficient_stock_all_or_nothing (s : DB) (oid pid : String)
    (o : OrderDoc) (comp : CompanyDoc)
    (ho : getDoc s.orders oid = some o)
    (hnp : ¬ o.status = .paid)
    (hcomp : getDoc s.companies o.companyId = some comp)
    (hex : ∀ it ∈ o.items, (getDoc s.products it.productId).isSome = true)
    (hpos : ∀ it ∈ o.items, 0 ≤ it.quantity)
    (hfail : ∃ it ∈ o.items, itemShort s it = true) :
    ∃ nm, payOrder s oid pid = (.err ("Insufficient stock for " ++ nm), s) ∧
      ∃ k p, getDoc s.products k = some p ∧ p.name = nm := by
  obtain ⟨nm, hst, hw⟩ :=
    stockTxn_insufficient o.items s s (prodsLe_refl s) hex hpos hfail
  refine ⟨nm, ?_, hw⟩
  have hups : updateProductStock s o.items
      = (some ("Insufficient stock for " ++ nm), s) := by
    unfold updateProductStock
    rw [hst]
  unfold payOrder
  simp [ho, if_neg hnp, hcomp, hups]

/-- Products for the C6 witness: the first is plentiful, the second has
only 3 units. -/
def c6ProductA : ProductDoc :=
  { companyId := "c6"
    name := "Bolt"
    quantity := 10
    isActive := true }

/-- Second product of the C6 witness. -/
def c6ProductB : ProductDoc :=
  { companyId := "c6"
    name := "Nut"
    quantity := 3
    isActive := true }

/-- Two-line-item order for the C6 witness; the second line requests 5
units of a product with stock 3. -/
def c6Order : OrderDoc :=
  { companyId := "c6"
    customerId := "pp"
    customerEmail := "pp@x"
    items := [{ productId := "pa", quantity := 2 },
              { productId := "pb", quantity := 5 }]
    total := 70
    status := .pending }

/-- Store for the C6 witness. -/
def c6State : DB :=
  { users := [("pp", { email := "pp@x", walletBalance := 1000, isActive := true }),
              ("own6", { email := "o6@x", walletBalance := 0, isActive := true })]
    companies := [("c6", { ownerId := "own6" })]
    invoices := []
    orders := [("o6", c6Order)]
    products := [("pa", c6ProductA), ("pb", c6ProductB)]
    transactions := [] }

/-- Witness for the C6 theorem: the two-item order fails as a whole with
an insufficient stock error and the store, in particular the quantity of
the first product that was buffered for decrement, is unchanged. -/
theorem c6_insufficient_stock_witness :
    ∃ nm, payOrder c6State "o6" "pp"
        = (.err ("Insufficient stock for " ++ nm), c6State) ∧
      ∃ k p, getDoc c6State.products k = some p ∧ p.name = nm :=
  c6_insufficient_stock_all_or_nothing c6State "o6" "pp" c6Order
    { ownerId := "own6" }
    (by decide) (by decide) (by decide) (by decide) (by decide) (by decide)

end FlowApps
